import Mathlib

/-!
Shallow embedding of the multi-tenant SaaS backend's authorization-relevant
route handlers and middleware.

Sources embedded:
- `src/unnamed/part_000` — the `tenantGuard` middleware.
- `src/backend/src/routes/users.routes.js` — user routes. The file registers
  TWO handlers for each of `POST /tenants/:tenantId/users`,
  `GET /tenants/:tenantId/users`, `PUT /users/:userId`, `DELETE /users/:userId`.
  Express dispatches to the FIRST registered matching route, and every first
  handler terminates the request (it always sends a response and never calls
  `next()`), so the first-registered handler is the effective one and the
  second (APIs 8–11) is unreachable. Both are embedded where a claim needs them.
- `src/unnamed/part_001` — project routes (`POST /` create project,
  `PUT /projects/:projectId`, `DELETE /projects/:projectId`).

The `auth` and `requireRole` middleware modules are required by the routes but
are not among the provided source files; they are modelled from the spec where
needed (each such definition is marked `Modelled from the spec:`).

Conventions: SQL rows are structures whose fields mirror the columns the
handlers touch (`password_hash` is never read by any embedded decision, so it
is carried implicitly and omitted from the row); a nullable column or JS value
is an `Option`; an SQL `col = $1` comparison with a NULL parameter is never
true (`sqlEq`); JS strict (in)equality between a path string and the possibly
null `req.tenantId` is `jsNe`.
-/

namespace MultiTenant

/-- `req.user` as set by the auth middleware from the verified token, together
with `req.tenantId` (the token's tenant id, `NULL` for a super admin, cf. the
seed data in `src/unnamed/part_002`). -/
structure Actor where
  userId : String
  role : String
  tenantId : Option String
deriving DecidableEq, Repr

/-- A row of the `users` table (columns read or written by the embedded
handlers; `password_hash` is never inspected by any decision and is omitted). -/
structure UserRow where
  id : String
  tenant_id : Option String
  email : String
  full_name : String
  role : String
  is_active : Bool
deriving DecidableEq, Repr

/-- A row of the `projects` table. -/
structure ProjectRow where
  id : String
  tenant_id : Option String
  name : String
  description : String
  status : String
  created_by : String
deriving DecidableEq, Repr

/-- A row of the `tenants` table (columns the embedded handlers read). -/
structure TenantRow where
  id : String
  max_users : Nat
  max_projects : Nat
deriving DecidableEq, Repr

/-- The database state the embedded handlers read and write. -/
structure DB where
  users : List UserRow
  projects : List ProjectRow
  tenants : List TenantRow
deriving DecidableEq, Repr

/-- An entry produced by `auditLog` (`src/backend/src/utils/auditLogger`),
with the fields every embedded call site passes (timestamp and ip are opaque
to all decisions and omitted). -/
structure AuditEntry where
  tenantId : Option String
  userId : String
  action : String
  entityType : String
  entityId : String
deriving DecidableEq, Repr

/-- SQL equality `col = $1` where the parameter may be NULL: a comparison with
NULL is never true, so a NULL parameter selects no row. -/
def sqlEq : Option String → Option String → Bool
  | some a, some b => a == b
  | _, _ => false

/-- JS strict inequality `pathParam !== req.tenantId` where the path parameter
is always a string and `req.tenantId` may be null: a string is strictly
unequal to null. -/
def jsNe (p : String) (t : Option String) : Bool :=
  match t with
  | some s => p != s
  | none => true

/-- `SELECT ... FROM users WHERE tenant_id=$1` with `$1 = req.tenantId`. -/
def selectUsersByTenant (db : DB) (t : Option String) : List UserRow :=
  db.users.filter (fun r => sqlEq r.tenant_id t)

/-- `SELECT COUNT(*) FROM users WHERE tenant_id=$1`. -/
def countUsers (db : DB) (t : Option String) : Nat :=
  (selectUsersByTenant db t).length

/-- `SELECT COUNT(*) FROM projects WHERE tenant_id=$1`. -/
def countProjects (db : DB) (t : Option String) : Nat :=
  (db.projects.filter (fun r => sqlEq r.tenant_id t)).length

/-- `SELECT max_users, max_projects FROM tenants WHERE id=$1` with a possibly
null parameter. -/
def findTenant (db : DB) (t : Option String) : Option TenantRow :=
  db.tenants.find? (fun r => sqlEq (some r.id) t)

/-- `SELECT * FROM users WHERE id=$1` (no tenant filter), taking the first row. -/
def findUserById (db : DB) (uid : String) : Option UserRow :=
  db.users.find? (fun r => r.id == uid)

/-- `SELECT * FROM projects WHERE id=$1 AND tenant_id=$2` with
`$2 = req.tenantId`, taking the first row. -/
def findProject (db : DB) (pid : String) (t : Option String) : Option ProjectRow :=
  db.projects.find? (fun r => r.id == pid && sqlEq r.tenant_id t)

/-- An HTTP response as the handlers produce it: status and message of either
a success or an error JSON body. -/
inductive Resp where
  | ok (status : Nat) (message : String)
  | err (status : Nat) (message : String)
deriving DecidableEq, Repr

/-- Result of the list-users route: a denial, or the returned rows. -/
inductive ListResult where
  | denied (status : Nat) (message : String)
  | rows (data : List UserRow)
deriving DecidableEq, Repr

/-- Outcome of a middleware: continue down the chain, or respond and stop. -/
inductive GuardResult where
  | next
  | deny (status : Nat) (message : String)
deriving DecidableEq, Repr

/-- The `tenantGuard` middleware (`src/unnamed/part_000`): a `super_admin`
passes unconditionally (its `tenantId` is never inspected); every other actor
must carry a tenant id, else 403 "Tenant access denied". -/
def tenantGuard (u : Actor) : GuardResult :=
  if u.role == "super_admin" then .next
  else if u.tenantId == none then .deny 403 "Tenant access denied"
  else .next

/-- Modelled from the spec: the `requireRole` middleware
(`src/backend/src/middleware/requireRole`) is not among the provided source
files. Per §4.3 the PlatformAdmin (`super_admin`) role is allowed
unconditionally before any other rule; otherwise the actor's role must equal
the required role. -/
def requireRolePasses (required : String) (u : Actor) : Bool :=
  u.role == required || u.role == "super_admin"

/-- Result of token validation. -/
inductive ValidationResult where
  | valid (c : Actor)
  | rejected (message : String)
deriving DecidableEq, Repr

/-- Modelled from the spec: the TokenValidator (the `auth` middleware,
`src/backend/src/middleware/auth`) is not among the provided source files.
Per §4.1 and invariant 1 of §3, a parsed claim set whose role is PlatformAdmin
(`super_admin`) while its tenant id is non-null is internally contradictory and
is rejected as `Malformed` at validation, even when the signature is valid. -/
def validateClaims (c : Actor) : ValidationResult :=
  if c.role == "super_admin" && c.tenantId != none then .rejected "Malformed"
  else .valid c

/-- The request pipeline up to claim validation: a rejected claim set
short-circuits with a 403 and the downstream stages (scope resolution, policy,
handlers) are never invoked. -/
def authPipeline (c : Actor) (downstream : Actor → Resp) : Resp :=
  match validateClaims c with
  | .rejected m => .err 403 m
  | .valid c2 => downstream c2

/-- A handler's observable outcome: the response, the database afterwards, and
the audit log afterwards. -/
structure HandlerOut where
  resp : Resp
  db : DB
  audit : List AuditEntry
deriving DecidableEq, Repr

/-- Body of `POST /tenants/:tenantId/users`; `role` defaults to `"user"` when
absent (`const { role = "user" } = req.body`). -/
structure CreateUserBody where
  email : String
  password : String
  fullName : String
  role : Option String
deriving DecidableEq, Repr

/-- `POST /tenants/:tenantId/users`, first-registered handler
(`users.routes.js` lines 16–62), the one Express dispatches to. Middleware:
`auth`, `requireRole("tenant_admin")`, `tenantGuard`. Then: deny a path tenant
different from `req.tenantId`; count the tenant's users and read `max_users`
(a missing tenant row makes `tenantRes.rows[0].max_users` throw, surfaced by
Express as a 500); deny at the ceiling; otherwise insert the user with
`tenant_id = req.tenantId` (the `is_active` column is not in the INSERT list
and takes its schema default, true) and append an audit entry. `newId` stands
for the generated `uuidv4()`. -/
def createUserFirst (u : Actor) (paramTenantId : String) (body : CreateUserBody)
    (newId : String) (db : DB) (audit : List AuditEntry) : HandlerOut :=
  if !(requireRolePasses "tenant_admin" u) then
    ⟨.err 403 "Forbidden: insufficient role", db, audit⟩
  else match tenantGuard u with
  | .deny s m => ⟨.err s m, db, audit⟩
  | .next =>
    if jsNe paramTenantId u.tenantId then
      ⟨.err 403 "Cross-tenant access denied", db, audit⟩
    else match findTenant db u.tenantId with
    | none => ⟨.err 500 "Internal server error", db, audit⟩
    | some t =>
      if countUsers db u.tenantId ≥ t.max_users then
        ⟨.err 403 "Subscription limit reached", db, audit⟩
      else
        ⟨.ok 201 "User created",
         { db with users := db.users ++
             [⟨newId, u.tenantId, body.email, body.fullName, body.role.getD "user", true⟩] },
         audit ++ [⟨u.tenantId, u.userId, "CREATE_USER", "user", newId⟩]⟩

/-- `GET /tenants/:tenantId/users`, first-registered handler
(`users.routes.js` lines 67–84). Middleware: `auth`, `tenantGuard`. Denies 403
"Forbidden" when the path tenant differs from `req.tenantId` unless the actor
is a `super_admin`; the SELECT is keyed by `req.tenantId`, never by the path
parameter. -/
def listUsersFirst (u : Actor) (paramTenantId : String) (db : DB) : ListResult :=
  match tenantGuard u with
  | .deny s m => .denied s m
  | .next =>
    if jsNe paramTenantId u.tenantId && u.role != "super_admin" then
      .denied 403 "Forbidden"
    else
      .rows (selectUsersByTenant db u.tenantId)

/-- Body of `PUT /users/:userId`: each field is applied through SQL
`COALESCE($i, col)`, so an absent field leaves the column unchanged. -/
structure UpdateUserBody where
  fullName : Option String
  role : Option String
  isActive : Option Bool
deriving DecidableEq, Repr

/-- The `UPDATE users SET ... COALESCE ...` row transformation shared by both
update-user handlers. -/
def applyUserUpdate (body : UpdateUserBody) (r : UserRow) : UserRow :=
  { r with
    full_name := body.fullName.getD r.full_name,
    role := body.role.getD r.role,
    is_active := body.isActive.getD r.is_active }

/-- `PUT /users/:userId`, first-registered handler (`users.routes.js` lines
89–131), the one Express dispatches to. Middleware: `auth`, `tenantGuard`.
Fetches the target by id alone (no tenant filter), 404s when absent, denies
unless the actor is a `tenant_admin` or is the target themself, then applies
the COALESCE update of `full_name`, `role`, `is_active` and appends an audit
entry. Note: no comparison of the target's `tenant_id` against `req.tenantId`
occurs anywhere in this handler. -/
def putUserFirst (u : Actor) (paramUserId : String) (body : UpdateUserBody)
    (db : DB) (audit : List AuditEntry) : HandlerOut :=
  match tenantGuard u with
  | .deny s m => ⟨.err s m, db, audit⟩
  | .next =>
    match findUserById db paramUserId with
    | none => ⟨.err 404 "User not found", db, audit⟩
    | some target =>
      if u.role != "tenant_admin" && u.userId != target.id then
        ⟨.err 403 "Forbidden", db, audit⟩
      else
        ⟨.ok 200 "User updated",
         { db with users :=
             db.users.map (fun r => if r.id == target.id then applyUserUpdate body r else r) },
         audit ++ [⟨u.tenantId, u.userId, "UPDATE_USER", "user", target.id⟩]⟩

/-- `PUT /users/:userId`, second-registered handler, "API 10"
(`users.routes.js` lines 247–297) — unreachable behind `putUserFirst`, embedded
because the spec's user-update rules cite it. After the 404 check it enforces
tenant isolation (`userRes.rows[0].tenant_id !== req.tenantId`, JS strict
equality on two nullable values) unless the actor is a `super_admin`, then
denies a body that supplies `role` or `isActive` unless the actor is a
`tenant_admin`, then applies the COALESCE update (no audit call). -/
def putUserApi10 (u : Actor) (paramUserId : String) (body : UpdateUserBody)
    (db : DB) (audit : List AuditEntry) : HandlerOut :=
  match tenantGuard u with
  | .deny s m => ⟨.err s m, db, audit⟩
  | .next =>
    match findUserById db paramUserId with
    | none => ⟨.err 404 "User not found", db, audit⟩
    | some target =>
      if u.role != "super_admin" && target.tenant_id != u.tenantId then
        ⟨.err 403 "Forbidden", db, audit⟩
      else if (body.role.isSome || body.isActive.isSome) && u.role != "tenant_admin" then
        ⟨.err 403 "Not authorized", db, audit⟩
      else
        ⟨.ok 200 "User updated successfully",
         { db with users :=
             db.users.map (fun r => if r.id == paramUserId then applyUserUpdate body r else r) },
         audit⟩

/-- `DELETE /users/:userId`, first-registered handler (`users.routes.js` lines
136–161), the one Express dispatches to. Middleware: `auth`,
`requireRole("tenant_admin")`, `tenantGuard`. Denies deleting one's own id,
then runs `DELETE FROM users WHERE id=$1 AND tenant_id=$2` with
`$2 = req.tenantId` and — without checking how many rows were affected —
appends an audit entry and responds 200 "User deleted". -/
def deleteUserFirst (u : Actor) (paramUserId : String)
    (db : DB) (audit : List AuditEntry) : HandlerOut :=
  if !(requireRolePasses "tenant_admin" u) then
    ⟨.err 403 "Forbidden: insufficient role", db, audit⟩
  else match tenantGuard u with
  | .deny s m => ⟨.err s m, db, audit⟩
  | .next =>
    if u.userId == paramUserId then
      ⟨.err 403 "Cannot delete yourself", db, audit⟩
    else
      ⟨.ok 200 "User deleted",
       { db with users :=
           db.users.filter (fun r => !(r.id == paramUserId && sqlEq r.tenant_id u.tenantId)) },
       audit ++ [⟨u.tenantId, u.userId, "DELETE_USER", "user", paramUserId⟩]⟩

/-- Body of `POST /` (create project); `description` defaults to `""` and
`status` to `"active"` when absent. -/
structure CreateProjectBody where
  name : String
  description : Option String
  status : Option String
deriving DecidableEq, Repr

/-- `POST /` create project (`src/unnamed/part_001` lines 14–56). Middleware:
`auth`, `tenantGuard` — there is no role check on this route. Counts the
tenant's projects and reads `max_projects` (a missing tenant row makes
`tenantRes.rows[0].max_projects` throw, surfaced as a 500); denies 403
"Project limit reached" at the ceiling; otherwise inserts the project with
`tenant_id = req.tenantId`, `created_by = req.user.userId` and appends an
audit entry. `newId` stands for the generated `uuidv4()`. -/
def createProject (u : Actor) (body : CreateProjectBody) (newId : String)
    (db : DB) (audit : List AuditEntry) : HandlerOut :=
  match tenantGuard u with
  | .deny s m => ⟨.err s m, db, audit⟩
  | .next =>
    match findTenant db u.tenantId with
    | none => ⟨.err 500 "Internal server error", db, audit⟩
    | some t =>
      if countProjects db u.tenantId ≥ t.max_projects then
        ⟨.err 403 "Project limit reached", db, audit⟩
      else
        ⟨.ok 201 "Project created",
         { db with projects := db.projects ++
             [⟨newId, u.tenantId, body.name, body.description.getD "",
               body.status.getD "active", u.userId⟩] },
         audit ++ [⟨u.tenantId, u.userId, "CREATE_PROJECT", "project", newId⟩]⟩

/-- Body of `PUT /projects/:projectId` ("API 14"), applied through COALESCE. -/
structure UpdateProjectBody where
  name : Option String
  description : Option String
  status : Option String
deriving DecidableEq, Repr

/-- `PUT /projects/:projectId`, "API 14" (`src/unnamed/part_001` lines
178–248). Middleware: `auth`, `tenantGuard`. Fetches the project with
`WHERE id=$1 AND tenant_id=$2` (`$2 = req.tenantId`), so a project of another
tenant is invisible and yields 404; denies unless the actor is a
`tenant_admin` or the project's creator; applies the COALESCE update and
appends an audit entry. -/
def putProject (u : Actor) (paramProjectId : String) (body : UpdateProjectBody)
    (db : DB) (audit : List AuditEntry) : HandlerOut :=
  match tenantGuard u with
  | .deny s m => ⟨.err s m, db, audit⟩
  | .next =>
    match findProject db paramProjectId u.tenantId with
    | none => ⟨.err 404 "Project not found", db, audit⟩
    | some p =>
      if u.role != "tenant_admin" && p.created_by != u.userId then
        ⟨.err 403 "Forbidden", db, audit⟩
      else
        ⟨.ok 200 "Project updated successfully",
         { db with projects := db.projects.map (fun r =>
             if r.id == p.id then
               { r with name := body.name.getD r.name,
                        description := body.description.getD r.description,
                        status := body.status.getD r.status }
             else r) },
         audit ++ [⟨u.tenantId, u.userId, "UPDATE_PROJECT", "project", p.id⟩]⟩

/-- Per-request progress through the check-then-insert creation handlers: the
count query not yet run, the ceiling check passed with the insert pending, the
ceiling check failed (403), or the insert committed (201). -/
inductive ReqPhase where
  | start
  | passed
  | denied
  | done
deriving DecidableEq, Repr

/-- One atomic database operation of request `i` in the creation handlers'
check-then-insert sequence (`users.routes.js` lines 28–49, `part_001` lines
17–40): from `start`, the count query plus ceiling comparison
(`count >= ceiling` → denied, else passed); from `passed`, the unconditional
INSERT, incrementing the committed count. The two operations are separate
queries in the source, so other requests may interleave between them. -/
def quotaStep (ceiling : Nat) (s : Nat × List ReqPhase) (i : Nat) : Nat × List ReqPhase :=
  match s.2.get? i with
  | some .start =>
      if s.1 ≥ ceiling then (s.1, s.2.set i .denied)
      else (s.1, s.2.set i .passed)
  | some .passed => (s.1 + 1, s.2.set i .done)
  | _ => s

/-- Run `n` concurrent creation requests against a tenant with the given
ceiling and no pre-existing rows, under the interleaving given by `sched`
(each entry names the request performing its next atomic database operation).
Returns the committed row count and each request's final phase. -/
def runQuotaSchedule (ceiling : Nat) (n : Nat) (sched : List Nat) : Nat × List ReqPhase :=
  sched.foldl (quotaStep ceiling) (0, List.replicate n .start)

/-- Number of requests whose insert committed (they received a 201). -/
def successCount (phases : List ReqPhase) : Nat :=
  (phases.filter (fun p => p == .done)).length

/-- An actor whose claims carry a tenant id passes `tenantGuard` whatever its
role is. -/
theorem tenantGuard_next_of_some (u : Actor) (s : String) (h : u.tenantId = some s) :
    tenantGuard u = .next := by
  unfold tenantGuard
  by_cases hr : u.role == "super_admin" <;> simp [hr, h]

/-- SQL equality against a NULL parameter never selects a row. -/
theorem sqlEq_none_right (x : Option String) : sqlEq x none = false := by
  cases x <;> rfl

/-- C1: the claim says every non-PlatformAdmin actor bound to tenant T is
denied with TenantMismatch on any target with a different tenant id, before
any role or ownership check, and never modifies a resource outside T. The
effective `PUT /users/:userId` handler fetches the target with no tenant
filter and never compares the target's `tenant_id` with `req.tenantId`: a
`tenant_admin` bound to T1 updating a user of T2 gets 200 and the T2 user's
row is modified. -/
theorem C1_cross_tenant_user_update_bug :
    putUserFirst ⟨"a1", "tenant_admin", some "T1"⟩ "u2" ⟨some "Hacked", none, none⟩
      ⟨[⟨"u2", some "T2", "e2", "Old Name", "user", true⟩], [], []⟩ [] =
    ⟨.ok 200 "User updated",
     ⟨[⟨"u2", some "T2", "e2", "Hacked", "user", true⟩], [], []⟩,
     [⟨some "T1", "a1", "UPDATE_USER", "user", "u2"⟩]⟩ := by decide

/-- C2: the claim says a self-update by a non-TenantAdmin actor may only touch
`fullName`, and that supplying `role` or `isActive` is denied. The effective
`PUT /users/:userId` handler applies all three COALESCE fields for any
self-update: a Member setting their own role to `tenant_admin` gets 200 and
the role is escalated, while the shadowed second-registered handler (API 10)
denies exactly this request with "Not authorized". -/
theorem C2_self_role_escalation_bug :
    putUserFirst ⟨"m1", "user", some "T1"⟩ "m1" ⟨none, some "tenant_admin", none⟩
      ⟨[⟨"m1", some "T1", "m", "Mem", "user", true⟩], [], []⟩ [] =
    ⟨.ok 200 "User updated",
     ⟨[⟨"m1", some "T1", "m", "Mem", "tenant_admin", true⟩], [], []⟩,
     [⟨some "T1", "m1", "UPDATE_USER", "user", "m1"⟩]⟩ ∧
    putUserApi10 ⟨"m1", "user", some "T1"⟩ "m1" ⟨none, some "tenant_admin", none⟩
      ⟨[⟨"m1", some "T1", "m", "Mem", "user", true⟩], [], []⟩ [] =
    ⟨.err 403 "Not authorized",
     ⟨[⟨"m1", some "T1", "m", "Mem", "user", true⟩], [], []⟩, []⟩ := by decide

/-- C3: the claim says that with ceiling K and N > K concurrent creation
requests exactly K succeed and the committed count never exceeds K. The
creation handlers run the count query and the INSERT as two separate
statements, so under the interleaving check₀, check₁, insert₀, insert₁ with
ceiling 1 and two requests, both requests observe room, both commit, and the
committed count reaches 2 > 1 with 2 ≠ K successes. -/
theorem C3_quota_race_bug :
    runQuotaSchedule 1 2 [0, 1, 0, 1] = (2, [.done, .done]) ∧
    successCount (runQuotaSchedule 1 2 [0, 1, 0, 1]).2 = 2 := by decide

/-- C4: a parsed claim set whose role is `super_admin` while its tenant id is
non-null is rejected as Malformed at validation, and the pipeline
short-circuits with 403 regardless of what the downstream stages would do, so
the claim set never reaches scope resolution, policy evaluation, or any
handler. -/
theorem C4_platform_admin_tenant_claim_rejected (c : Actor) (t : String)
    (k : Actor → Resp) (hrole : c.role = "super_admin") (ht : c.tenantId = some t) :
    validateClaims c = .rejected "Malformed" ∧
    authPipeline c k = .err 403 "Malformed" := by
  have hv : validateClaims c = .rejected "Malformed" := by
    simp [validateClaims, hrole, ht]
  exact ⟨hv, by simp [authPipeline, hv]⟩

/-- Witness for C4 at a concrete contradictory claim set. -/
theorem C4_platform_admin_tenant_claim_rejected_witness :
    validateClaims ⟨"sa", "super_admin", some "T1"⟩ = .rejected "Malformed" ∧
    authPipeline ⟨"sa", "super_admin", some "T1"⟩ (fun _ => .ok 200 "reached") =
      .err 403 "Malformed" :=
  C4_platform_admin_tenant_claim_rejected ⟨"sa", "super_admin", some "T1"⟩ "T1"
    (fun _ => .ok 200 "reached") rfl rfl

/-- C5 counterexample: the claim says a Member's project-creation request is
always denied. The create-project route has no role check (middleware is only
`auth` and `tenantGuard`): a Member bound to T1 with free quota gets 201 and
the project row is inserted. -/
theorem C5_member_creates_project_counterexample :
    createProject ⟨"m1", "user", some "T1"⟩ ⟨"P", none, none⟩ "p1"
      ⟨[], [], [⟨"T1", 25, 15⟩]⟩ [] =
    ⟨.ok 201 "Project created",
     ⟨[], [⟨"p1", some "T1", "P", "", "active", "m1"⟩], [⟨"T1", 25, 15⟩]⟩,
     [⟨some "T1", "m1", "CREATE_PROJECT", "project", "p1"⟩]⟩ := by decide

/-- C5 amended: project creation is role-blind. Any actor bound to a tenant
whose project count is below the ceiling — regardless of role, so in
particular a Member — gets 201 and the project is inserted for the claims
tenant. -/
theorem C5_create_project_role_blind (u : Actor) (t : TenantRow)
    (body : CreateProjectBody) (newId : String) (db : DB) (audit : List AuditEntry)
    (ht : u.tenantId = some t.id)
    (htenant : findTenant db u.tenantId = some t)
    (hq : countProjects db u.tenantId < t.max_projects) :
    createProject u body newId db audit =
      ⟨.ok 201 "Project created",
       { db with projects := db.projects ++
           [⟨newId, u.tenantId, body.name, body.description.getD "",
             body.status.getD "active", u.userId⟩] },
       audit ++ [⟨u.tenantId, u.userId, "CREATE_PROJECT", "project", newId⟩]⟩ := by
  have hg : tenantGuard u = .next := tenantGuard_next_of_some u t.id ht
  have hnot : ¬ countProjects db u.tenantId ≥ t.max_projects := Nat.not_le.mpr hq
  simp [createProject, hg, htenant, hnot]

/-- Witness for the amended C5 at a concrete Member request. -/
theorem C5_create_project_role_blind_witness :
    createProject ⟨"m9", "user", some "T1"⟩ ⟨"Q", none, none⟩ "p7"
      ⟨[], [], [⟨"T1", 25, 15⟩]⟩ [] =
    ⟨.ok 201 "Project created",
     ⟨[], [⟨"p7", some "T1", "Q", "", "active", "m9"⟩], [⟨"T1", 25, 15⟩]⟩,
     [⟨some "T1", "m9", "CREATE_PROJECT", "project", "p7"⟩]⟩ :=
  C5_create_project_role_blind ⟨"m9", "user", some "T1"⟩ ⟨"T1", 25, 15⟩
    ⟨"Q", none, none⟩ "p7" ⟨[], [], [⟨"T1", 25, 15⟩]⟩ [] rfl rfl (by decide)

/-- C6: when a tenant's project count already equals its `max_projects`
ceiling, a creation request by that tenant's `tenant_admin` is denied 403
"Project limit reached" and the database (and the audit log) is unchanged —
no project row is inserted. -/
theorem C6_project_quota_at_ceiling (u : Actor) (t : TenantRow)
    (body : CreateProjectBody) (newId : String) (db : DB) (audit : List AuditEntry)
    (_hrole : u.role = "tenant_admin")
    (ht : u.tenantId = some t.id)
    (htenant : findTenant db u.tenantId = some t)
    (hq : countProjects db u.tenantId = t.max_projects) :
    createProject u body newId db audit = ⟨.err 403 "Project limit reached", db, audit⟩ := by
  have hg : tenantGuard u = .next := tenantGuard_next_of_some u t.id ht
  have hge : countProjects db u.tenantId ≥ t.max_projects := hq.ge
  simp [createProject, hg, htenant, hge]

/-- Witness for C6: tenant T1 with ceiling 2 and two existing projects. -/
theorem C6_project_quota_at_ceiling_witness :
    createProject ⟨"a1", "tenant_admin", some "T1"⟩ ⟨"C", none, none⟩ "p3"
      ⟨[], [⟨"p1", some "T1", "A", "", "active", "a1"⟩,
            ⟨"p2", some "T1", "B", "", "active", "a1"⟩], [⟨"T1", 25, 2⟩]⟩ [] =
    ⟨.err 403 "Project limit reached",
     ⟨[], [⟨"p1", some "T1", "A", "", "active", "a1"⟩,
           ⟨"p2", some "T1", "B", "", "active", "a1"⟩], [⟨"T1", 25, 2⟩]⟩, []⟩ :=
  C6_project_quota_at_ceiling ⟨"a1", "tenant_admin", some "T1"⟩ ⟨"T1", 25, 2⟩
    ⟨"C", none, none⟩ "p3"
    ⟨[], [⟨"p1", some "T1", "A", "", "active", "a1"⟩,
          ⟨"p2", some "T1", "B", "", "active", "a1"⟩], [⟨"T1", 25, 2⟩]⟩ []
    rfl rfl rfl (by decide)

/-- C7 counterexample: the claim says EVERY actor's self-delete is denied with
SelfDeletionForbidden. On the effective `DELETE /users/:userId` route the
`requireRole("tenant_admin")` middleware runs before the self-check, so a
Member's self-delete is denied by the role gate, not with the self-deletion
reason ("Cannot delete yourself"). -/
theorem C7_member_self_delete_counterexample :
    deleteUserFirst ⟨"m1", "user", some "T1"⟩ "m1"
      ⟨[⟨"m1", some "T1", "m", "Mem", "user", true⟩], [], []⟩ [] =
    ⟨.err 403 "Forbidden: insufficient role",
     ⟨[⟨"m1", some "T1", "m", "Mem", "user", true⟩], [], []⟩, []⟩ ∧
    ("Forbidden: insufficient role" : String) ≠ "Cannot delete yourself" := by decide

/-- C7 amended: an actor who passes the role gate and the tenant guard (a
`tenant_admin` with a tenant binding, or a `super_admin`) has a self-delete
denied 403 "Cannot delete yourself" with the database and the audit log
unchanged; and for EVERY actor, whatever its role, a self-delete never changes
the database. -/
theorem C7_self_delete_denied (u v : Actor) (db : DB) (audit : List AuditEntry)
    (hpass : requireRolePasses "tenant_admin" u = true)
    (hguard : tenantGuard u = .next) :
    deleteUserFirst u u.userId db audit = ⟨.err 403 "Cannot delete yourself", db, audit⟩ ∧
    (deleteUserFirst v v.userId db audit).db = db := by
  constructor
  · simp [deleteUserFirst, hpass, hguard]
  · unfold deleteUserFirst
    by_cases hp : requireRolePasses "tenant_admin" v
    · cases hg : tenantGuard v <;> simp [hp, hg]
    · simp [hp]

/-- Witness for the amended C7: a `tenant_admin` and, for the unchanged
database part, a Member. -/
theorem C7_self_delete_denied_witness :
    deleteUserFirst ⟨"a1", "tenant_admin", some "T1"⟩ "a1"
      ⟨[⟨"a1", some "T1", "a", "Adm", "tenant_admin", true⟩], [], []⟩ [] =
    ⟨.err 403 "Cannot delete yourself",
     ⟨[⟨"a1", some "T1", "a", "Adm", "tenant_admin", true⟩], [], []⟩, []⟩ ∧
    (deleteUserFirst ⟨"m1", "user", some "T1"⟩ "m1"
      ⟨[⟨"a1", some "T1", "a", "Adm", "tenant_admin", true⟩], [], []⟩ []).db =
    ⟨[⟨"a1", some "T1", "a", "Adm", "tenant_admin", true⟩], [], []⟩ :=
  C7_self_delete_denied ⟨"a1", "tenant_admin", some "T1"⟩ ⟨"m1", "user", some "T1"⟩
    ⟨[⟨"a1", some "T1", "a", "Adm", "tenant_admin", true⟩], [], []⟩ [] rfl rfl

/-- C8 counterexample: the claim says a tenant-path mismatch fails with
CrossTenantAccessDenied. On the effective `GET /tenants/:tenantId/users` route
the mismatch is denied with the generic message "Forbidden", not the
cross-tenant one used by the create-user route. -/
theorem C8_list_mismatch_generic_forbidden :
    listUsersFirst ⟨"m1", "user", some "T1"⟩ "T2"
      ⟨[⟨"u2", some "T2", "e2", "N", "user", true⟩], [], []⟩ =
    .denied 403 "Forbidden" ∧
    ("Forbidden" : String) ≠ "Cross-tenant access denied" := by decide

/-- C8 amended: for a `tenant_admin` bound to tenant t, a tenant path
parameter different from t is denied 403 with "Cross-tenant access denied" on
the create-user route (database and audit unchanged) and with the generic
"Forbidden" on the list-users route; and whenever the list-users route returns
rows, they are selected by the claims tenant id, never by the path
parameter. -/
theorem C8_path_tenant_untrusted (u : Actor) (p q t : String)
    (body : CreateUserBody) (newId : String) (db : DB) (audit : List AuditEntry)
    (hadmin : u.role = "tenant_admin") (ht : u.tenantId = some t) (hne : p ≠ t) :
    createUserFirst u p body newId db audit =
      ⟨.err 403 "Cross-tenant access denied", db, audit⟩ ∧
    listUsersFirst u p db = .denied 403 "Forbidden" ∧
    (∀ rows, listUsersFirst u q db = .rows rows →
      rows = selectUsersByTenant db u.tenantId) := by
  have hg : tenantGuard u = .next := tenantGuard_next_of_some u t ht
  have hpass : requireRolePasses "tenant_admin" u = true := by
    simp [requireRolePasses, hadmin]
  have hjs : jsNe p u.tenantId = true := by simp [jsNe, ht, hne]
  have hns : u.role ≠ "super_admin" := by rw [hadmin]; decide
  refine ⟨?_, ?_, ?_⟩
  · simp [createUserFirst, hpass, hg, hjs]
  · simp [listUsersFirst, hg, hjs, hns]
  · intro rows h
    unfold listUsersFirst at h
    rw [hg] at h
    by_cases hc : (jsNe q u.tenantId && u.role != "super_admin") = true
    · rw [if_pos hc] at h
      exact absurd h (by simp)
    · rw [if_neg hc] at h
      exact (ListResult.rows.injEq _ _ ▸ h).symm

/-- Witness for the amended C8 at a concrete `tenant_admin` of T1 naming T2 in
the path. -/
theorem C8_path_tenant_untrusted_witness :
    createUserFirst ⟨"a1", "tenant_admin", some "T1"⟩ "T2" ⟨"e", "p", "F", none⟩ "n1"
      ⟨[⟨"u2", some "T2", "e2", "N", "user", true⟩], [], []⟩ [] =
    ⟨.err 403 "Cross-tenant access denied",
     ⟨[⟨"u2", some "T2", "e2", "N", "user", true⟩], [], []⟩, []⟩ :=
  (C8_path_tenant_untrusted ⟨"a1", "tenant_admin", some "T1"⟩ "T2" "T1" "T1"
    ⟨"e", "p", "F", none⟩ "n1"
    ⟨[⟨"u2", some "T2", "e2", "N", "user", true⟩], [], []⟩ []
    rfl rfl (by decide)).1

/-- C9: the claim says a delete-user request by a `tenant_admin` whose target
is absent from their tenant returns 404 and writes no audit entry. The
effective `DELETE /users/:userId` handler never checks how many rows the
tenant-filtered DELETE affected: for a target belonging to another tenant it
deletes nothing, still appends a DELETE_USER audit entry, and responds 200
"User deleted". -/
theorem C9_missing_target_delete_bug :
    deleteUserFirst ⟨"a1", "tenant_admin", some "T1"⟩ "u9"
      ⟨[⟨"u9", some "T2", "e9", "N", "user", true⟩], [], []⟩ [] =
    ⟨.ok 200 "User deleted",
     ⟨[⟨"u9", some "T2", "e9", "N", "user", true⟩], [], []⟩,
     [⟨some "T1", "a1", "DELETE_USER", "user", "u9"⟩]⟩ := by decide

/-- C10: the effective `GET /tenants/:tenantId/users` handler selects rows by
the claims tenant id only — whenever it returns rows they equal the SELECT
keyed by `req.tenantId`, whatever the path parameter — and a `super_admin`,
whose claims carry no tenant id, passes the cross-tenant check for any path
tenant yet receives the list selected by the null tenant id, which the SQL
NULL-comparison semantics make empty, not the requested tenant's users. -/
theorem C10_list_selects_claims_tenant (u : Actor) (p : String) (db : DB) :
    (∀ rows, listUsersFirst u p db = .rows rows →
      rows = selectUsersByTenant db u.tenantId) ∧
    (u.role = "super_admin" → u.tenantId = none →
      listUsersFirst u p db = .rows (selectUsersByTenant db u.tenantId) ∧
      selectUsersByTenant db u.tenantId = []) := by
  constructor
  · intro rows h
    unfold listUsersFirst at h
    cases hg : tenantGuard u with
    | deny s m => rw [hg] at h; exact absurd h (by simp)
    | next =>
      rw [hg] at h
      by_cases hc : (jsNe p u.tenantId && u.role != "super_admin") = true
      · rw [if_pos hc] at h
        exact absurd h (by simp)
      · rw [if_neg hc] at h
        exact (ListResult.rows.injEq _ _ ▸ h).symm
  · intro hrole ht
    have hg : tenantGuard u = .next := by simp [tenantGuard, hrole]
    have hempty : selectUsersByTenant db u.tenantId = [] := by
      rw [ht]
      simp [selectUsersByTenant, sqlEq_none_right]
    refine ⟨?_, hempty⟩
    simp [listUsersFirst, hg, hrole]

/-- Witness for C10: a `super_admin` listing tenant T1's users receives the
empty list although T1 has a user. -/
theorem C10_list_selects_claims_tenant_witness :
    listUsersFirst ⟨"sa", "super_admin", none⟩ "T1"
      ⟨[⟨"u1", some "T1", "e1", "N", "user", true⟩], [], []⟩ = .rows [] := by
  have h := (C10_list_selects_claims_tenant ⟨"sa", "super_admin", none⟩ "T1"
    ⟨[⟨"u1", some "T1", "e1", "N", "user", true⟩], [], []⟩).2 rfl rfl
  rw [h.1, h.2]

end MultiTenant
